import Mathlib

/-!
Shallow embedding of `src/app.py`, a single-file weather dashboard.

The embedded pieces are the three core routines the specification covers:

* `get_weather_data` (app.py lines 16-36): issues two HTTP GET requests and
  either returns both JSON bodies or a single error message.  The transport is
  abstracted: the function is modelled as a pure function of the two
  `HttpResponse` values the requests produced.
* `format_unix_time` (app.py lines 38-43): `datetime.utcfromtimestamp`
  interprets the timestamp as UTC seconds; adding a `pd.Timedelta` of
  `timezone_offset` seconds and rendering `%H:%M:%S` yields the time-of-day of
  `timestamp + timezone_offset`, i.e. its value modulo 86400 seconds, printed
  as zero-padded `HH:MM:SS`.
* `create_forecast_dataframe` (app.py lines 45-69): builds a row dict per
  3-hour sample, turns the list into a DataFrame, groups by the `Date` column
  (pandas `groupby` sorts the distinct keys ascending and keeps the original
  order inside each group), aggregates max/min temperature and the first
  row's `Weather` value, and truncates with `head(5)`.

Numeric temperatures are modelled as `Int` (the claims under study only use
ordering and equality of temperatures, never float rounding).  Calendar dates
are modelled as day numbers: `datetime.fromtimestamp(t).date()` on a host
whose local clock is `sysOff` seconds ahead of UTC is day
`(t + sysOff).fdiv 86400` of the epoch.  Python semantics embedded here:

* `datetime.fromtimestamp` (line 52-53) converts to the HOST LOCAL timezone
  (unlike `utcfromtimestamp` used at line 41), hence the explicit `sysOff`
  parameter of the embedding;
* `str.capitalize` (lines 55 and 125) uppercases the first character and
  lowercases the rest (`pyCapitalize`);
* `dict.get(key, default)` (lines 29 and 31) is `pyGet`;
* `pd.DataFrame([]).groupby('Date')` raises `KeyError: Date`, because a
  DataFrame built from an empty list has no columns at all; the embedding
  returns `Except.error "KeyError: Date"` exactly when the sample list is
  empty (line 50 produced no dicts).
-/

/-- One 3-hour forecast entry of the provider response: `entry['dt']`
(Unix timestamp), `entry['main']['temp']`, `entry['weather'][0]['description']`
(app.py lines 50-56). -/
structure ForecastSample where
  dt : Int
  temp : Int
  description : String
  deriving DecidableEq, Repr

/-- Embedding of Python `str.capitalize` (app.py lines 55 and 125): first
character uppercased, all remaining characters lowercased. -/
def pyCapitalize (s : String) : String :=
  match s.data with
  | [] => ""
  | c :: cs => String.mk (c.toUpper :: cs.map Char.toLower)

/-- App.py line 53: `datetime.fromtimestamp(entry['dt']).date()`.
`datetime.fromtimestamp` converts the Unix timestamp to the host machine's
local timezone, whose UTC offset in seconds is the parameter `sysOff`; the
resulting calendar date is the epoch day number of `t + sysOff`. -/
def sample_date (t sysOff : Int) : Int :=
  (t + sysOff).fdiv 86400

/-- One dict appended to `df_list` (app.py lines 51-56): the `Time`, `Date`,
temperature and `Weather` columns of the forecast DataFrame. -/
structure Entry where
  time : Int
  date : Int
  temp : Int
  weather : String
  deriving DecidableEq, Repr

/-- App.py lines 51-56: the row dict built from one forecast sample; the
`Weather` column already holds the capitalized description. -/
def make_entry (sysOff : Int) (s : ForecastSample) : Entry :=
  { time := s.dt
    date := sample_date s.dt sysOff
    temp := s.temp
    weather := pyCapitalize s.description }

/-- One row of the output of `create_forecast_dataframe` after
`reset_index()`: the group key `Date` and the aggregated columns
`Max_Temp`, `Min_Temp`, `Weather` (app.py lines 61-65). -/
structure DailyRow where
  date : Int
  max_temp : Int
  min_temp : Int
  weather : String
  deriving DecidableEq, Repr

/-- The aggregation of one `groupby('Date')` group (app.py lines 61-65):
`Max_Temp` and `Min_Temp` are max/min of the temperature column over the
group, `Weather` is `x.iloc[0]`, the group's first row in original order.
pandas groups are never empty; the `[]` branch is unreachable filler. -/
def daily_row (d : Int) (grp : List Entry) : DailyRow :=
  match grp with
  | [] => { date := d, max_temp := 0, min_temp := 0, weather := "" }
  | e :: rest =>
      { date := d
        max_temp := rest.foldl (fun a x => max a x.temp) e.temp
        min_temp := rest.foldl (fun a x => min a x.temp) e.temp
        weather := e.weather }

/-- The distinct group keys of `df.groupby('Date')` in the order pandas
emits them: `groupby` with default `sort=True` sorts the distinct key
values ascending (app.py line 61). -/
def forecast_dates (df : List Entry) : List Int :=
  List.insertionSort (· ≤ ·) (df.map Entry.date).dedup

/-- App.py lines 45-69.  Builds the per-sample row dicts, groups them by the
`Date` column and aggregates, returning the first 5 rows (`head(5)`).
When the sample list is empty `pd.DataFrame([])` has no columns and
`groupby('Date')` raises `KeyError`, modelled as `Except.error`. -/
def create_forecast_dataframe (samples : List ForecastSample) (sysOff : Int) :
    Except String (List DailyRow) :=
  let df := samples.map (make_entry sysOff)
  if df.isEmpty then
    Except.error "KeyError: Date"
  else
    Except.ok (((forecast_dates df).map
      (fun d => daily_row d (df.filter (fun e => e.date = d)))).take 5)

/-- App.py lines 38-43.  `utcfromtimestamp` plus a seconds `Timedelta` and
`strftime` of `%H:%M:%S` renders the time-of-day of
`timestamp + timezone_offset` as zero-padded `HH:MM:SS`. -/
def two_digit (n : Nat) : String :=
  (if n < 10 then "0" else "") ++ toString n

/-- App.py lines 38-43: `format_unix_time(timestamp, timezone_offset)`. -/
def format_unix_time (timestamp timezone_offset : Int) : String :=
  let secs := ((timestamp + timezone_offset).emod 86400).toNat
  two_digit (secs / 3600) ++ ":" ++ two_digit ((secs % 3600) / 60) ++ ":" ++
    two_digit (secs % 60)

/-- An HTTP response as `get_weather_data` consumes it: the status code and
the JSON object body, modelled as an association list of string fields. -/
structure HttpResponse where
  status_code : Nat
  body : List (String × String)
  deriving DecidableEq, Repr

/-- Python `dict.get(key, default)` on the modelled JSON object
(app.py lines 29 and 31). -/
def pyGet (body : List (String × String)) (key dflt : String) : String :=
  (body.lookup key).getD dflt

/-- The dict returned by `get_weather_data`: either `{'error': message}` or
`{'current': ..., 'forecast': ...}` (app.py lines 29, 31, 33-36). -/
inductive FetchResult where
  | error (message : String)
  | ok (current forecast : List (String × String))
  deriving DecidableEq, Repr

/-- App.py lines 16-36 with the transport abstracted: the two
`requests.get` calls produced `current_response` and `forecast_response`;
the function checks the two status codes in that order and builds the
result dict. -/
def get_weather_data (current_response forecast_response : HttpResponse) :
    FetchResult :=
  if current_response.status_code ≠ 200 then
    FetchResult.error
      (pyGet current_response.body "message" "Error fetching current weather data.")
  else if forecast_response.status_code ≠ 200 then
    FetchResult.error
      (pyGet forecast_response.body "message" "Error fetching forecast data.")
  else
    FetchResult.ok current_response.body forecast_response.body

/-- App.py line 125: `current['weather'][0]['description'].capitalize()`,
the current-conditions description transformed before display; its argument
is the raw description string extracted from the response. -/
def weather_desc (current_description : String) : String :=
  pyCapitalize current_description


/-- Modelled from the spec: app.py line 15 decorates `get_weather_data` with
`@st.cache_data(ttl=600)`; the cache implementation lives in the streamlit
library and is not part of this repository's sources.  Following the spec
(sections 4.1 and 9): a mapping from the argument pair `(city, unit)` to the
time the entry was stored and the stored result, plus a counter of
underlying network round trips. -/
structure CacheState where
  entries : List ((String × String) × (Int × FetchResult))
  network_calls : Nat
  deriving DecidableEq, Repr

/-- Modelled from the spec: one call of the `@st.cache_data(ttl=600)`
decorated `get_weather_data`.  `transport city unit` stands for the pair of
`requests.get` calls of one uncached execution (one underlying network
round trip); `now` is the wall-clock time of the call in seconds.  A stored
entry younger than the 600-second ttl is returned without touching the
network; otherwise the transport runs once and its result is stored. -/
def cached_get_weather_data (transport : String → String → FetchResult)
    (now : Int) (city unit : String) (cache : CacheState) :
    FetchResult × CacheState :=
  match cache.entries.lookup (city, unit) with
  | some (t0, r) =>
      if now - t0 < 600 then
        (r, cache)
      else
        let r := transport city unit
        (r, ⟨((city, unit), (now, r)) :: cache.entries, cache.network_calls + 1⟩)
  | none =>
      let r := transport city unit
      (r, ⟨((city, unit), (now, r)) :: cache.entries, cache.network_calls + 1⟩)

/-! ### Helper lemmas about the aggregation -/

theorem daily_row_date (d : Int) (grp : List Entry) : (daily_row d grp).date = d := by
  cases grp <;> rfl

theorem foldl_min_le (t : Int) (l : List Entry) :
    l.foldl (fun a x => min a x.temp) t ≤ t := by
  induction l generalizing t with
  | nil => exact le_refl t
  | cons e es ih => exact le_trans (ih (min t e.temp)) (min_le_left _ _)

theorem le_foldl_max (t : Int) (l : List Entry) :
    t ≤ l.foldl (fun a x => max a x.temp) t := by
  induction l generalizing t with
  | nil => exact le_refl t
  | cons e es ih => exact le_trans (le_max_left _ _) (ih (max t e.temp))

theorem daily_row_min_le_max (d : Int) (grp : List Entry) :
    (daily_row d grp).min_temp ≤ (daily_row d grp).max_temp := by
  cases grp with
  | nil => exact le_refl 0
  | cons e rest => exact le_trans (foldl_min_le e.temp rest) (le_foldl_max e.temp rest)

theorem find?_eq_filter_head {α : Type} (p : α → Bool) (l : List α) :
    l.find? p = (l.filter p).head? := by
  induction l with
  | nil => rfl
  | cons a t ih =>
    cases hp : p a with
    | true => rw [List.find?_cons_of_pos _ hp, List.filter_cons_of_pos hp, List.head?_cons]
    | false =>
      rw [List.find?_cons_of_neg _ (by simp [hp]), List.filter_cons_of_neg (by simp [hp]), ih]

theorem create_ok_eq (samples : List ForecastSample) (sysOff : Int)
    (rows : List DailyRow)
    (h : create_forecast_dataframe samples sysOff = Except.ok rows) :
    rows = ((forecast_dates (samples.map (make_entry sysOff))).map
      (fun d => daily_row d
        ((samples.map (make_entry sysOff)).filter (fun e => e.date = d)))).take 5 := by
  by_cases he : (samples.map (make_entry sysOff)).isEmpty
  · simp [create_forecast_dataframe, he] at h
  · simp [create_forecast_dataframe, he] at h
    exact h.symm

theorem mem_rows (samples : List ForecastSample) (sysOff : Int)
    (rows : List DailyRow) (r : DailyRow)
    (h : create_forecast_dataframe samples sysOff = Except.ok rows) (hr : r ∈ rows) :
    ∃ d ∈ forecast_dates (samples.map (make_entry sysOff)),
      r = daily_row d ((samples.map (make_entry sysOff)).filter (fun e => e.date = d)) := by
  rw [create_ok_eq samples sysOff rows h] at hr
  rcases List.mem_map.mp (List.take_subset 5 _ hr) with ⟨d, hd, hfd⟩
  exact ⟨d, hd, hfd.symm⟩

theorem dates_mem (df : List Entry) (d : Int) (hd : d ∈ forecast_dates df) :
    ∃ e ∈ df, e.date = d := by
  have hmem : d ∈ (df.map Entry.date).dedup :=
    ((List.perm_insertionSort _ _).mem_iff).mp hd
  rcases List.mem_map.mp (List.mem_dedup.mp hmem) with ⟨e, he, hde⟩
  exact ⟨e, he, hde⟩

theorem filter_entries (samples : List ForecastSample) (sysOff d : Int) :
    (samples.map (make_entry sysOff)).filter (fun e => e.date = d) =
      (samples.filter (fun s => sample_date s.dt sysOff = d)).map (make_entry sysOff) := by
  rw [List.filter_map]
  rfl

theorem pairwise_forecast_dates (df : List Entry) :
    (forecast_dates df).Pairwise (· < ·) := by
  have hs : (forecast_dates df).Sorted (· ≤ ·) := List.sorted_insertionSort _ _
  have hn : (forecast_dates df).Nodup :=
    (List.perm_insertionSort _ _).nodup_iff.mpr (List.nodup_dedup _)
  exact hs.lt_of_le hn

theorem row_first_sample (samples : List ForecastSample) (sysOff : Int)
    (rows : List DailyRow) (r : DailyRow)
    (h : create_forecast_dataframe samples sysOff = Except.ok rows) (hr : r ∈ rows) :
    ∃ s, samples.find? (fun s => sample_date s.dt sysOff = r.date) = some s ∧
      s ∈ samples ∧ sample_date s.dt sysOff = r.date ∧
      r.weather = pyCapitalize s.description := by
  obtain ⟨d, hd, hrd⟩ := mem_rows samples sysOff rows r h hr
  obtain ⟨e, he, hde⟩ := dates_mem _ d hd
  rcases List.mem_map.mp he with ⟨s0, hs0, hes0⟩
  have hfil : samples.filter (fun s => sample_date s.dt sysOff = d) ≠ [] := by
    intro hnil
    have : s0 ∈ samples.filter (fun s => sample_date s.dt sysOff = d) :=
      List.mem_filter.mpr ⟨hs0, by simp [← hes0, make_entry] at hde ⊢; exact hde⟩
    rw [hnil] at this
    exact List.not_mem_nil s0 this
  cases hfp : samples.filter (fun s => sample_date s.dt sysOff = d) with
  | nil => exact absurd hfp hfil
  | cons s rest =>
    have hrdate : r.date = d := by rw [hrd, daily_row_date]
    have hsmem : s ∈ samples.filter (fun s => sample_date s.dt sysOff = d) := by
      rw [hfp]; exact List.mem_cons_self s rest
    have hsprop := List.mem_filter.mp hsmem
    refine ⟨s, ?_, hsprop.1, ?_, ?_⟩
    · rw [hrdate, find?_eq_filter_head, hfp, List.head?_cons]
    · rw [hrdate]; exact of_decide_eq_true hsprop.2
    · rw [hrd, filter_entries, hfp]
      rfl

/-! ### Claim theorems -/

/-- Claim C1: for every input sequence of forecast samples, any table
returned by the daily aggregation has at most 5 rows and its row dates are
strictly ascending with no duplicates. -/
theorem create_forecast_dataframe_at_most_five_ascending
    (samples : List ForecastSample) (sysOff : Int) (rows : List DailyRow)
    (h : create_forecast_dataframe samples sysOff = Except.ok rows) :
    rows.length ≤ 5 ∧ (rows.map DailyRow.date).Pairwise (· < ·) := by
  rw [create_ok_eq samples sysOff rows h]
  constructor
  · exact List.length_take_le 5 _
  · rw [List.map_take, List.map_map]
    have h2 : ∀ d ∈ forecast_dates (samples.map (make_entry sysOff)),
        (DailyRow.date ∘ fun d => daily_row d
          ((samples.map (make_entry sysOff)).filter (fun e => e.date = d))) d = id d :=
      fun d _ => daily_row_date d _
    rw [List.map_congr_left h2, List.map_id]
    exact List.Pairwise.sublist (List.take_sublist 5 _) (pairwise_forecast_dates _)

/-- Claim C1 witness: the bound and ordering evaluated on a concrete
one-sample input. -/
theorem create_forecast_dataframe_at_most_five_ascending_witness :
    ([⟨0, 1, 1, "A"⟩] : List DailyRow).length ≤ 5 ∧
      (([⟨0, 1, 1, "A"⟩] : List DailyRow).map DailyRow.date).Pairwise (· < ·) :=
  create_forecast_dataframe_at_most_five_ascending [⟨0, 1, "a"⟩] 0 [⟨0, 1, 1, "A"⟩] rfl

/-- Claim C2: on the empty sample list the code does not return an empty
table; `pd.DataFrame([])` has no columns, so `groupby('Date')` raises
`KeyError`.  This theorem evaluates the embedding at the failing input. -/
theorem create_forecast_dataframe_empty_raises :
    create_forecast_dataframe [] 0 = Except.error "KeyError: Date" := rfl

/-- Claim C3 counterexample: the stored label is the capitalized
description, not the provider description verbatim: for a single sample
described as "light rain" the output row holds "Light rain". -/
theorem forecast_weather_label_not_verbatim :
    create_forecast_dataframe [⟨0, 10, "light rain"⟩] 0 =
        Except.ok [⟨0, 10, 10, "Light rain"⟩] ∧
      ("Light rain" : String) ≠ "light rain" :=
  ⟨rfl, by decide⟩

/-- Claim C3 (amended): for every output row, the representative weather
label equals the CAPITALIZED description of the first sample of that row's
date in input sequence order. -/
theorem forecast_weather_label_first_sample
    (samples : List ForecastSample) (sysOff : Int)
    (rows : List DailyRow) (r : DailyRow)
    (h : create_forecast_dataframe samples sysOff = Except.ok rows) (hr : r ∈ rows) :
    ∃ s, samples.find? (fun s => sample_date s.dt sysOff = r.date) = some s ∧
      r.weather = pyCapitalize s.description := by
  obtain ⟨s, h1, _, _, h4⟩ := row_first_sample samples sysOff rows r h hr
  exact ⟨s, h1, h4⟩

/-- Claim C3 witness: the amended statement evaluated on a concrete
two-sample day. -/
theorem forecast_weather_label_first_sample_witness :
    ∃ s, ([⟨0, 10, "light rain"⟩, ⟨10800, 12, "mist"⟩] : List ForecastSample).find?
        (fun s => sample_date s.dt 0 = (⟨0, 12, 10, "Light rain"⟩ : DailyRow).date) = some s ∧
      (⟨0, 12, 10, "Light rain"⟩ : DailyRow).weather = pyCapitalize s.description :=
  forecast_weather_label_first_sample [⟨0, 10, "light rain"⟩, ⟨10800, 12, "mist"⟩] 0
    [⟨0, 12, 10, "Light rain"⟩] ⟨0, 12, 10, "Light rain"⟩ rfl (by simp)

/-- Claim C4 counterexample: `datetime.fromtimestamp` uses the host local
timezone, so on a host 3600 seconds ahead of UTC the sample at timestamp
86399 (23:59:59 UTC of epoch day 0) is grouped under day 1, while its
UTC-basis calendar day is 0. -/
theorem forecast_grouping_date_not_utc :
    create_forecast_dataframe [⟨86399, 5, "x"⟩] 3600 = Except.ok [⟨1, 5, 5, "X"⟩] ∧
      sample_date 86399 3600 = 1 ∧ (86399 : Int).fdiv 86400 = 0 ∧ (1 : Int) ≠ 0 :=
  ⟨rfl, rfl, rfl, by decide⟩

/-- Claim C4 (amended): the grouping date applies the host system's UTC
offset; when that offset is zero every output row's date is the UTC-basis
epoch day of one of the input samples. -/
theorem forecast_grouping_date_utc_when_host_utc
    (samples : List ForecastSample) (rows : List DailyRow) (r : DailyRow)
    (h : create_forecast_dataframe samples 0 = Except.ok rows) (hr : r ∈ rows) :
    ∃ s, s ∈ samples ∧ r.date = s.dt.fdiv 86400 := by
  obtain ⟨s, _, hmem, hdate, _⟩ := row_first_sample samples 0 rows r h hr
  refine ⟨s, hmem, ?_⟩
  rw [← hdate]
  simp [sample_date]

/-- Claim C4 witness: the amended statement evaluated on a concrete
one-sample input with host offset zero. -/
theorem forecast_grouping_date_utc_when_host_utc_witness :
    ∃ s, s ∈ ([⟨90000, 7, "fog"⟩] : List ForecastSample) ∧
      (⟨1, 7, 7, "Fog"⟩ : DailyRow).date = s.dt.fdiv 86400 :=
  forecast_grouping_date_utc_when_host_utc [⟨90000, 7, "fog"⟩]
    [⟨1, 7, 7, "Fog"⟩] ⟨1, 7, 7, "Fog"⟩ rfl (by simp)

/-- Claim C5: if either response has a non-200 status, `get_weather_data`
returns a single error whose message is the failing response's `message`
field (with the generic fallback when absent), and never the success dict:
no partial data from the other request is surfaced. -/
theorem get_weather_data_non_200_single_error
    (cr fr : HttpResponse) (h : cr.status_code ≠ 200 ∨ fr.status_code ≠ 200) :
    (∀ c f, get_weather_data cr fr ≠ FetchResult.ok c f) ∧
      (cr.status_code ≠ 200 →
        get_weather_data cr fr = FetchResult.error
          (pyGet cr.body "message" "Error fetching current weather data.")) ∧
      (cr.status_code = 200 →
        get_weather_data cr fr = FetchResult.error
          (pyGet fr.body "message" "Error fetching forecast data.")) := by
  by_cases hc : cr.status_code = 200
  · have hf : fr.status_code ≠ 200 := h.resolve_left (fun hn => hn hc)
    refine ⟨fun c f => ?_, fun hne => absurd hc hne, fun _ => ?_⟩
    · simp [get_weather_data, hc, hf]
    · simp [get_weather_data, hc, hf]
  · refine ⟨fun c f => ?_, fun _ => ?_, fun he => absurd he hc⟩
    · simp [get_weather_data, hc]
    · simp [get_weather_data, hc]

/-- Claim C5 witness: a 404 current-conditions response carrying the
provider message "city not found" yields exactly that error message. -/
theorem get_weather_data_non_200_single_error_witness :
    get_weather_data ⟨404, [("message", "city not found")]⟩ ⟨200, []⟩ =
      FetchResult.error "city not found" :=
  ((get_weather_data_non_200_single_error ⟨404, [("message", "city not found")]⟩
      ⟨200, []⟩ (Or.inl (by decide))).2.1 (by decide)).trans (by decide)

/-- Claim C6: two calls of the cached fetch with the same `(place, unit)`
key within the 600-second ttl: the second call returns the result the first
call produced, and the pair of calls performs at most one underlying
network round trip. -/
theorem cached_fetch_single_roundtrip
    (transport : String → String → FetchResult) (t1 t2 : Int) (city unit : String)
    (h1 : t1 ≤ t2) (h2 : t2 - t1 < 600) :
    (cached_get_weather_data transport t2 city unit
        (cached_get_weather_data transport t1 city unit ⟨[], 0⟩).2).1 =
      (cached_get_weather_data transport t1 city unit ⟨[], 0⟩).1 ∧
    (cached_get_weather_data transport t2 city unit
        (cached_get_weather_data transport t1 city unit ⟨[], 0⟩).2).2.network_calls ≤ 1 := by
  simp [cached_get_weather_data, List.lookup, h2]

/-- Claim C6 witness: the caching property evaluated for a stub transport
and calls at times 0 and 300. -/
theorem cached_fetch_single_roundtrip_witness :
    (cached_get_weather_data (fun _ _ => FetchResult.error "stub") 300 "London" "metric"
        (cached_get_weather_data (fun _ _ => FetchResult.error "stub") 0 "London" "metric"
          ⟨[], 0⟩).2).1 =
      (cached_get_weather_data (fun _ _ => FetchResult.error "stub") 0 "London" "metric"
        ⟨[], 0⟩).1 ∧
    (cached_get_weather_data (fun _ _ => FetchResult.error "stub") 300 "London" "metric"
        (cached_get_weather_data (fun _ _ => FetchResult.error "stub") 0 "London" "metric"
          ⟨[], 0⟩).2).2.network_calls ≤ 1 :=
  cached_fetch_single_roundtrip (fun _ _ => FetchResult.error "stub") 0 300
    "London" "metric" (by decide) (by decide)

/-- Claim C7: in every output row `Min_Temp ≤ Max_Temp`, and when the row's
date group consists of exactly one sample both aggregates equal that
sample's temperature. -/
theorem daily_aggregate_max_ge_min
    (samples : List ForecastSample) (sysOff : Int)
    (rows : List DailyRow) (r : DailyRow)
    (h : create_forecast_dataframe samples sysOff = Except.ok rows) (hr : r ∈ rows) :
    r.min_temp ≤ r.max_temp ∧
      ∀ s : ForecastSample,
        samples.filter (fun x => sample_date x.dt sysOff = r.date) = [s] →
        r.max_temp = s.temp ∧ r.min_temp = s.temp := by
  obtain ⟨d, _, hrd⟩ := mem_rows samples sysOff rows r h hr
  subst hrd
  refine ⟨daily_row_min_le_max d _, ?_⟩
  intro s hs
  rw [daily_row_date] at hs
  rw [filter_entries, hs]
  exact ⟨rfl, rfl⟩

/-- Claim C7 witness: the aggregate bounds evaluated on a concrete
singleton group. -/
theorem daily_aggregate_max_ge_min_witness :
    (⟨0, 9, 9, "Haze"⟩ : DailyRow).min_temp ≤ (⟨0, 9, 9, "Haze"⟩ : DailyRow).max_temp ∧
      ∀ s : ForecastSample,
        ([⟨3600, 9, "haze"⟩] : List ForecastSample).filter
            (fun x => sample_date x.dt 0 = (⟨0, 9, 9, "Haze"⟩ : DailyRow).date) = [s] →
        (⟨0, 9, 9, "Haze"⟩ : DailyRow).max_temp = s.temp ∧
          (⟨0, 9, 9, "Haze"⟩ : DailyRow).min_temp = s.temp :=
  daily_aggregate_max_ge_min [⟨3600, 9, "haze"⟩] 0
    [⟨0, 9, 9, "Haze"⟩] ⟨0, 9, 9, "Haze"⟩ rfl (by simp)

/-- Claim C8: shifting the timestamp by the offset and dropping the offset
leaves `format_unix_time` unchanged: `format_unix_time t off =
format_unix_time (t + off) 0` for all integers. -/
theorem format_unix_time_offset_shift (t off : Int) :
    format_unix_time t off = format_unix_time (t + off) 0 := by
  simp [format_unix_time]

/-- Claim C9: `format_unix_time 0 0` renders the epoch midnight as the
string "00:00:00". -/
theorem format_unix_time_epoch_midnight : format_unix_time 0 0 = "00:00:00" := rfl

/-- Claim C10: every output row's weather label is the Python-capitalized
description (first character uppercased, the rest lowercased) of the first
sample of that date, and the current-conditions description of app.py line
125 goes through the same `pyCapitalize` transformation before display. -/
theorem weather_descriptions_capitalized
    (samples : List ForecastSample) (sysOff : Int)
    (rows : List DailyRow) (r : DailyRow)
    (h : create_forecast_dataframe samples sysOff = Except.ok rows) (hr : r ∈ rows) :
    (∃ s, samples.find? (fun s => sample_date s.dt sysOff = r.date) = some s ∧
        r.weather = pyCapitalize s.description) ∧
      (∀ d : String, weather_desc d = pyCapitalize d) ∧
      (∀ c : Char, ∀ cs : List Char,
        pyCapitalize (String.mk (c :: cs)) = String.mk (c.toUpper :: cs.map Char.toLower)) := by
  obtain ⟨s, h1, _, _, h4⟩ := row_first_sample samples sysOff rows r h hr
  exact ⟨⟨s, h1, h4⟩, fun _ => rfl, fun _ _ => rfl⟩

/-- Claim C10 witness: the capitalization statement evaluated on a concrete
input whose description is not already capitalized. -/
theorem weather_descriptions_capitalized_witness :
    (∃ s, ([⟨0, 3, "heavy RAIN"⟩] : List ForecastSample).find?
        (fun s => sample_date s.dt 0 = (⟨0, 3, 3, "Heavy rain"⟩ : DailyRow).date) = some s ∧
        (⟨0, 3, 3, "Heavy rain"⟩ : DailyRow).weather = pyCapitalize s.description) ∧
      (∀ d : String, weather_desc d = pyCapitalize d) ∧
      (∀ c : Char, ∀ cs : List Char,
        pyCapitalize (String.mk (c :: cs)) = String.mk (c.toUpper :: cs.map Char.toLower)) :=
  weather_descriptions_capitalized [⟨0, 3, "heavy RAIN"⟩] 0
    [⟨0, 3, 3, "Heavy rain"⟩] ⟨0, 3, 3, "Heavy rain"⟩ rfl (by simp)
